import Mathlib

/-!
Verification of the DailyNotes token-authentication slice
(`app/auth_tokens.py`, `app/email_service.py`).

The database is modelled as a record of lists of rows; every operation of
`auth_tokens.py` is translated as a pure function threading the database
state explicitly, with the current UTC time (in seconds) and the random
entropy supplied as parameters.  The external library calls are modelled
concretely: `hashlib.sha256` as a full SHA-256 implementation over byte
lists, `secrets.token_urlsafe` as base64url encoding of a caller-supplied
entropy byte list.
-/

namespace DailyNotes

/-! ### SHA-256 (model of Python's `hashlib.sha256(...).hexdigest()`) -/

/-- The modulus for 32-bit word arithmetic, 2^32. -/
def M32 : Nat := 4294967296

/-- Right rotation of a 32-bit word (input assumed `< M32`). -/
def rotr (n x : Nat) : Nat := x / 2 ^ n + x % 2 ^ n * 2 ^ (32 - n)

/-- Bitwise complement of a 32-bit word. -/
def notw (x : Nat) : Nat := x ^^^ 4294967295

def ch (e f g : Nat) : Nat := (e &&& f) ^^^ (notw e &&& g)

def maj (a b c : Nat) : Nat := (a &&& b) ^^^ (a &&& c) ^^^ (b &&& c)

def bigSigma0 (a : Nat) : Nat := rotr 2 a ^^^ rotr 13 a ^^^ rotr 22 a

def bigSigma1 (e : Nat) : Nat := rotr 6 e ^^^ rotr 11 e ^^^ rotr 25 e

def smallSigma0 (x : Nat) : Nat := rotr 7 x ^^^ rotr 18 x ^^^ (x >>> 3)

def smallSigma1 (x : Nat) : Nat := rotr 17 x ^^^ rotr 19 x ^^^ (x >>> 10)

/-- The 64 SHA-256 round constants. -/
def K256 : List Nat :=
  [1116352408, 1899447441, 3049323471, 3921009573, 961987163, 1508970993,
   2453635748, 2870763221, 3624381080, 310598401, 607225278, 1426881987,
   1925078388, 2162078206, 2614888103, 3248222580, 3835390401, 4022224774,
   264347078, 604807628, 770255983, 1249150122, 1555081692, 1996064986,
   2554220882, 2821834349, 2952996808, 3210313671, 3336571891, 3584528711,
   113926993, 338241895, 666307205, 773529912, 1294757372, 1396182291,
   1695183700, 1986661051, 2177026350, 2456956037, 2730485921, 2820302411,
   3259730800, 3345764771, 3516065817, 3600352804, 4094571909, 275423344,
   430227734, 506948616, 659060556, 883997877, 958139571, 1322822218,
   1537002063, 1747873779, 1955562222, 2024104815, 2227730452, 2361852424,
   2428436474, 2756734187, 3204031479, 3329325298]

/-- The SHA-256 initial hash value. -/
def H256 : List Nat :=
  [1779033703, 3144134277, 1013904242, 2773480762,
   1359893119, 2600822924, 528734635, 1541459225]

/-- Group a byte list into big-endian 32-bit words. -/
def bytesToWords : List Nat → List Nat
  | b0 :: b1 :: b2 :: b3 :: rest =>
      (b0 * 16777216 + b1 * 65536 + b2 * 256 + b3) :: bytesToWords rest
  | _ => []

/-- One message-schedule extension step: append word `i` (where `i = w.length`). -/
def stepW (w : List Nat) : List Nat :=
  let i := w.length
  w ++ [(smallSigma1 (w.getD (i - 2) 0) + w.getD (i - 7) 0 +
         smallSigma0 (w.getD (i - 15) 0) + w.getD (i - 16) 0) % M32]

/-- One SHA-256 compression round on the working state `[a,b,c,d,e,f,g,h]`. -/
def compressRound (st : List Nat) (kw : Nat × Nat) : List Nat :=
  match st with
  | [a, b, c, d, e, f, g, h] =>
      let t1 := (h + bigSigma1 e + ch e f g + kw.1 + kw.2) % M32
      let t2 := (bigSigma0 a + maj a b c) % M32
      [(t1 + t2) % M32, a, b, c, (d + t1) % M32, e, f, g]
  | other => other

/-- Process one 64-byte block, updating the 8-word hash state. -/
def processBlock (h : List Nat) (block : List Nat) : List Nat :=
  let w := Nat.iterate stepW 48 (bytesToWords block)
  let st := (K256.zip w).foldl compressRound h
  (h.zip st).map (fun p => (p.1 + p.2) % M32)

/-- Fuel-driven worker for `chunks64`; `l.length` fuel always suffices. -/
def chunks64Go : Nat → List Nat → List (List Nat)
  | 0, _ => []
  | _, [] => []
  | n + 1, a :: as => ((a :: as).take 64) :: chunks64Go n ((a :: as).drop 64)

/-- Split a byte list into 64-byte chunks. -/
def chunks64 (l : List Nat) : List (List Nat) := chunks64Go l.length l

/-- Big-endian 8-byte encoding of the message bit length. -/
def lengthBytes (bitLen : Nat) : List Nat :=
  [bitLen / 2 ^ 56 % 256, bitLen / 2 ^ 48 % 256, bitLen / 2 ^ 40 % 256, bitLen / 2 ^ 32 % 256,
   bitLen / 2 ^ 24 % 256, bitLen / 2 ^ 16 % 256, bitLen / 2 ^ 8 % 256, bitLen % 256]

/-- SHA-256 padding: append `0x80`, zeros to 56 mod 64, then the 64-bit length. -/
def sha256pad (msg : List Nat) : List Nat :=
  msg ++ [128] ++ List.replicate ((119 - msg.length % 64) % 64) 0 ++ lengthBytes (msg.length * 8)

/-- Big-endian byte decomposition of a 32-bit word. -/
def wordToBytes (w : Nat) : List Nat :=
  [w / 16777216 % 256, w / 65536 % 256, w / 256 % 256, w % 256]

/-- SHA-256 of a byte list, as the list of 32 digest bytes. -/
def sha256 (msg : List Nat) : List Nat :=
  ((chunks64 (sha256pad msg)).foldl processBlock H256).flatMap wordToBytes

/-- Lowercase hex digit for `n < 16`. -/
def hexDigit (n : Nat) : Char := ("0123456789abcdef".data).getD n 'x'

/-- Lowercase hexadecimal rendering of a byte list. -/
def toHex (bytes : List Nat) : String :=
  String.mk (bytes.flatMap (fun b => [hexDigit (b / 16), hexDigit (b % 16)]))

/-- UTF-8 encoding of one character (model of Python `str.encode()` per char). -/
def utf8EncodeChar (c : Char) : List Nat :=
  let n := c.toNat
  if n < 128 then [n]
  else if n < 2048 then [192 + n / 64, 128 + n % 64]
  else if n < 65536 then [224 + n / 4096, 128 + n / 64 % 64, 128 + n % 64]
  else [240 + n / 262144, 128 + n / 4096 % 64, 128 + n / 64 % 64, 128 + n % 64]

/-- UTF-8 encoding of a string (model of Python `str.encode()`). -/
def utf8Encode (s : String) : List Nat := s.data.flatMap utf8EncodeChar

/-- Sanity check against the FIPS 180-2 test vector for `"abc"`. -/
theorem sha256_test_vector :
    toHex (sha256 (utf8Encode "abc")) =
      "ba7816bf8f01cfea414140de5dae2223b00361a396177a9cb410ff61f20015ad" := by
  decide

/-! ### base64url (model of `secrets.token_urlsafe`) -/

/-- The base64url alphabet. -/
def b64Char (n : Nat) : Char :=
  ("ABCDEFGHIJKLMNOPQRSTUVWXYZabcdefghijklmnopqrstuvwxyz0123456789-_".data).getD n 'A'

/-- Base64url encoding of a byte list, with the `=` padding already stripped
(as `secrets.token_urlsafe` does via `rstrip(b"=")`). -/
def b64encode : List Nat → List Char
  | [] => []
  | [b0] => [b64Char (b0 / 4), b64Char (b0 % 4 * 16)]
  | [b0, b1] => [b64Char (b0 / 4), b64Char (b0 % 4 * 16 + b1 / 16), b64Char (b1 % 16 * 4)]
  | b0 :: b1 :: b2 :: rest =>
      b64Char (b0 / 4) :: b64Char (b0 % 4 * 16 + b1 / 16) ::
        b64Char (b1 % 16 * 4 + b2 / 64) :: b64Char (b2 % 64) :: b64encode rest

/-! ### `app/auth_tokens.py`: data model and operations

Timestamps are UTC instants measured in seconds, modelled as `Int`.
`datetime.now(timezone.utc)` is passed in as the explicit `now` argument,
and the entropy drawn by `secrets.token_urlsafe(32)` as an explicit byte
list, since both are external inputs of the Python functions. -/

/-- Model of `secrets.token_urlsafe` applied to the given random bytes:
`generate_token` in the source draws 32 fresh bytes and encodes them. -/
def generate_token (entropy : List Nat) : String := String.mk (b64encode entropy)

/-- Source: `hash_token` — SHA-256 hex digest of the token's UTF-8 bytes. -/
def hash_token (token : String) : String := toHex (sha256 (utf8Encode token))

/-- Model of Python `str.lower()`: lowercase each character. -/
def pyLower (s : String) : String := String.mk (s.data.map Char.toLower)

/-- Whitespace as stripped by Python `str.strip()` (the ASCII cases). -/
def isPySpace (c : Char) : Bool :=
  c == ' ' || c == '\t' || c == '\n' || c == '\r' || c == Char.ofNat 11 || c == Char.ofNat 12

/-- Model of Python `str.strip()`: drop whitespace from both ends. -/
def pyStrip (s : String) : String :=
  String.mk (((s.data.dropWhile isPySpace).reverse.dropWhile isPySpace).reverse)

/-- Source: `hash_email_for_rate_limit` — SHA-256 hex digest of
`email.lower().strip()`. -/
def hash_email_for_rate_limit (email : String) : String :=
  toHex (sha256 (utf8Encode (pyStrip (pyLower email))))

/-- Source constant `PASSWORD_RESET_EXPIRY = timedelta(hours=1)`, in seconds. -/
def PASSWORD_RESET_EXPIRY : Int := 3600

/-- Source constant `MAGIC_LINK_EXPIRY = timedelta(minutes=15)`, in seconds. -/
def MAGIC_LINK_EXPIRY : Int := 900

/-- Source constant `RATE_LIMIT_WINDOW = timedelta(hours=1)`, in seconds. -/
def RATE_LIMIT_WINDOW : Int := 3600

/-- Source constant `RATE_LIMIT_MAX_REQUESTS = 3`. -/
def RATE_LIMIT_MAX_REQUESTS : Nat := 3

/-- A row of the `user` table (only the columns this slice reads). -/
structure User where
  uuid : Nat
  email : Option String
  username : String
deriving DecidableEq, Repr

/-- A row of the `auth_token` table. -/
structure AuthToken where
  uuid : Nat
  user_id : Nat
  token_hash : String
  token_type : String
  created_at : Int
  expires_at : Int
  used_at : Option Int
deriving DecidableEq, Repr

/-- A row of the `rate_limit` table. -/
structure RateLimit where
  uuid : Nat
  identifier : String
  action_type : String
  timestamp : Int
deriving DecidableEq, Repr

/-- The database state: the three tables, in insertion order, plus a counter
supplying fresh row ids. -/
structure DB where
  users : List User
  authTokens : List AuthToken
  rateLimits : List RateLimit
  nextId : Nat
deriving DecidableEq, Repr

/-- Source: `check_rate_limit` — counts recent `RateLimit` rows for the hashed
email and action type and compares against the ceiling.  The body only issues
a read query, so the state is returned unchanged. -/
def check_rate_limit (db : DB) (now : Int) (email action_type : String) : Bool × DB :=
  let identifier := hash_email_for_rate_limit email
  let cutoff := now - RATE_LIMIT_WINDOW
  let count := (db.rateLimits.filter fun r =>
    r.identifier == identifier && r.action_type == action_type &&
      decide (cutoff < r.timestamp)).length
  (count < RATE_LIMIT_MAX_REQUESTS, db)

/-- Source: `record_rate_limit` — inserts one `RateLimit` row with the hashed
identifier, the action type and the current timestamp. -/
def record_rate_limit (db : DB) (now : Int) (email action_type : String) : DB :=
  let identifier := hash_email_for_rate_limit email
  { db with
    rateLimits := db.rateLimits ++ [⟨db.nextId, identifier, action_type, now⟩],
    nextId := db.nextId + 1 }

/-- Source: `create_auth_token` — deletes the user's unused tokens of the same
type, then inserts one new hashed token row and returns the raw token. -/
def create_auth_token (db : DB) (now : Int) (user : User) (token_type : String)
    (entropy : List Nat) : String × DB :=
  let remaining := db.authTokens.filter fun t =>
    !(t.user_id == user.uuid && t.token_type == token_type && t.used_at == none)
  let raw_token := generate_token entropy
  let token_hash := hash_token raw_token
  let expiry :=
    if token_type == "password_reset" then now + PASSWORD_RESET_EXPIRY
    else now + MAGIC_LINK_EXPIRY
  let row : AuthToken := ⟨db.nextId, user.uuid, token_hash, token_type, now, expiry, none⟩
  (raw_token, { db with authTokens := remaining ++ [row], nextId := db.nextId + 1 })

/-- Source: `validate_token` — hashes the input, looks up the first unused,
unexpired row of the expected type with that hash, and resolves its user.
The body only issues read queries, so the state is returned unchanged. -/
def validate_token (db : DB) (now : Int) (raw_token token_type : String) :
    Option User × DB :=
  let token_hash := hash_token raw_token
  match db.authTokens.find? (fun t =>
    t.token_hash == token_hash && t.token_type == token_type &&
      t.used_at == none && decide (now < t.expires_at)) with
  | none => (none, db)
  | some t => (db.users.find? (fun u => u.uuid == t.user_id), db)

/-- Set `used_at` on the first row whose `token_hash` matches (the row
`first()` returns and `invalidate_token` mutates). -/
def setUsedAtFirst (hash : String) (now : Int) : List AuthToken → List AuthToken
  | [] => []
  | t :: ts =>
      if t.token_hash == hash then { t with used_at := some now } :: ts
      else t :: setUsedAtFirst hash now ts

/-- Source: `invalidate_token` — finds any row by hash alone and, when found,
stamps its `used_at` with the current time and reports success. -/
def invalidate_token (db : DB) (now : Int) (raw_token : String) : Bool × DB :=
  let token_hash := hash_token raw_token
  match db.authTokens.find? (fun t => t.token_hash == token_hash) with
  | some _ => (true, { db with authTokens := setUsedAtFirst token_hash now db.authTokens })
  | none => (false, db)

/-- Source: `cleanup_expired_tokens` — deletes expired token rows, then token
rows used more than a day ago, then rate-limit rows older than the window. -/
def cleanup_expired_tokens (db : DB) (now : Int) : DB :=
  let afterExpired := db.authTokens.filter fun t => !decide (t.expires_at < now)
  let used_cutoff := now - 86400
  let afterUsed := afterExpired.filter fun t =>
    !(match t.used_at with
      | some u => decide (u < used_cutoff)
      | none => false)
  let rate_cutoff := now - RATE_LIMIT_WINDOW
  { db with
    authTokens := afterUsed,
    rateLimits := db.rateLimits.filter fun r => !decide (r.timestamp < rate_cutoff) }

/-- Source: `get_user_by_email` — rejects a falsy email, normalizes the query
with `lower().strip()`, and scans all users comparing each truthy stored
email lowercased (the stored side is not stripped). -/
def get_user_by_email (db : DB) (email : String) : Option User :=
  if email == "" then none
  else
    let email_normalized := pyStrip (pyLower email)
    db.users.find? fun u =>
      match u.email with
      | some em => em != "" && (pyLower em == email_normalized)
      | none => false

/-! ### `app/email_service.py`: configuration and sending -/

/-- The configuration values `EmailService.init_app` reads through
`app.config.get`; an absent key is `none`, and a key may also be set to the
empty string. -/
structure AppConfig where
  SMTP_HOST : Option String
  SMTP_USER : Option String
  SMTP_PASSWORD : Option String
deriving DecidableEq, Repr

/-- Python truthiness of an optional string: `None` and `""` are falsy. -/
def truthy : Option String → Bool
  | some s => s != ""
  | none => false

/-- The `EmailService` state as left by `init_app` (the fields the claims
are about). -/
structure EmailService where
  smtp_host : Option String
  smtp_user : Option String
  smtp_password : Option String
  enabled : Bool
deriving DecidableEq, Repr

/-- Source: `EmailService.init_app` — stores the SMTP settings and computes
`enabled = bool(host and user and password)`. -/
def init_app (cfg : AppConfig) : EmailService :=
  { smtp_host := cfg.SMTP_HOST
    smtp_user := cfg.SMTP_USER
    smtp_password := cfg.SMTP_PASSWORD
    enabled := truthy cfg.SMTP_HOST && truthy cfg.SMTP_USER && truthy cfg.SMTP_PASSWORD }

/-- Outcome of the external `aiosmtplib.send` call: delivery either succeeds
or the transport raises an exception with some message. -/
inductive SmtpOutcome where
  | delivered : SmtpOutcome
  | raised : String → SmtpOutcome
deriving DecidableEq, Repr

/-- Source: `EmailService.send_email` — returns `False` immediately when the
service is not enabled; otherwise attempts delivery and catches any exception
from the transport, converting it into a `False` return. -/
def send_email (svc : EmailService) (outcome : SmtpOutcome) : Bool :=
  if !svc.enabled then false
  else
    match outcome with
    | SmtpOutcome.delivered => true
    | SmtpOutcome.raised _ => false

/-! ### Spec-side predicates (stated from the specification's words, for the
refinement-style claims) -/

/-- Spec side: a `RateLimit` row counted by `check_rate_limit` — identifier
equal to the SHA-256 hash of the lowercased, trimmed email, matching action
type, timestamp strictly inside the trailing 1-hour window. -/
def rlMatches (now : Int) (email action_type : String) (r : RateLimit) : Prop :=
  r.identifier = toHex (sha256 (utf8Encode (pyStrip (pyLower email))))
  ∧ r.action_type = action_type ∧ now - 3600 < r.timestamp

instance (now : Int) (email action_type : String) (r : RateLimit) :
    Decidable (rlMatches now email action_type r) := by
  unfold rlMatches; infer_instance

/-- Number of rate-limit rows matching the spec-side window predicate. -/
def rlCount (db : DB) (now : Int) (email action_type : String) : Nat :=
  (db.rateLimits.filter fun r => decide (rlMatches now email action_type r)).length

/-- Spec side: an `AuthToken` row whose expiry is strictly in the past. -/
def tokenExpired (now : Int) (t : AuthToken) : Prop := t.expires_at < now

instance (now : Int) (t : AuthToken) : Decidable (tokenExpired now t) := by
  unfold tokenExpired; infer_instance

/-- Spec side: an `AuthToken` row consumed strictly more than 24 hours ago. -/
def tokenOldUsed (now : Int) (t : AuthToken) : Prop :=
  ∃ u, t.used_at = some u ∧ u < now - 86400

instance (now : Int) (t : AuthToken) : Decidable (tokenOldUsed now t) := by
  unfold tokenOldUsed
  match h : t.used_at with
  | none => exact isFalse (by simp [h])
  | some u => exact decidable_of_iff (u < now - 86400) (by simp [h])

/-- Spec side: a `RateLimit` row strictly older than the 1-hour window. -/
def rateOld (now : Int) (r : RateLimit) : Prop := r.timestamp < now - 3600

instance (now : Int) (r : RateLimit) : Decidable (rateOld now r) := by
  unfold rateOld; infer_instance

/-- Spec side: the email comparison `get_user_by_email` actually performs — the
user's stored email is non-empty and, lowercased (never trimmed), equals the
queried email lowercased and trimmed. -/
def emailMatches (email : String) (u : User) : Prop :=
  ∃ em, u.email = some em ∧ em ≠ "" ∧ pyLower em = pyStrip (pyLower email)

/-! ### Helper lemmas -/

theorem find?_append_of_forall_false {α : Type} (p : α → Bool) (l1 l2 : List α)
    (h : ∀ x ∈ l1, p x = false) : (l1 ++ l2).find? p = l2.find? p := by
  induction l1 with
  | nil => rfl
  | cons a as ih =>
      have ha : p a = false := h a (List.mem_cons_self a as)
      simp only [List.cons_append, List.find?, ha]
      exact ih (fun x hx => h x (List.mem_cons_of_mem a hx))

theorem setUsedAtFirst_append (h : String) (now : Int) (l1 l2 : List AuthToken)
    (hl : ∀ t ∈ l1, (t.token_hash == h) = false) :
    setUsedAtFirst h now (l1 ++ l2) = l1 ++ setUsedAtFirst h now l2 := by
  induction l1 with
  | nil => rfl
  | cons a as ih =>
      have ha : (a.token_hash == h) = false := hl a (List.mem_cons_self a as)
      simp only [List.cons_append, setUsedAtFirst, ha, if_neg Bool.false_ne_true,
        Bool.false_eq_true, if_false, List.cons.injEq, true_and]
      exact ih (fun t ht => hl t (List.mem_cons_of_mem a ht))

theorem setUsedAtFirst_spec (h : String) (now : Int) (r : AuthToken) :
    ∀ l : List AuthToken, l.find? (fun t => t.token_hash == h) = some r →
      ({ r with used_at := some now } ∈ setUsedAtFirst h now l
        ∧ ∀ t ∈ l, t.token_hash ≠ h → t ∈ setUsedAtFirst h now l) := by
  intro l
  induction l with
  | nil => intro hf; simp [List.find?] at hf
  | cons a as ih =>
      intro hf
      by_cases ha : (a.token_hash == h) = true
      · have har : a = r := by
          simpa [List.find?, ha] using hf
        subst har
        constructor
        · simp [setUsedAtFirst, ha]
        · intro t ht hth
          rcases List.mem_cons.mp ht with rfl | hmem
          · exact absurd (by simpa using ha) hth
          · simp [setUsedAtFirst, ha, List.mem_cons, hmem]
      · have ha' : (a.token_hash == h) = false := by
          simpa using ha
        have hf' : as.find? (fun t => t.token_hash == h) = some r := by
          simpa [List.find?, ha'] using hf
        obtain ⟨h1, h2⟩ := ih hf'
        constructor
        · simp [setUsedAtFirst, ha', List.mem_cons, h1]
        · intro t ht hth
          rcases List.mem_cons.mp ht with rfl | hmem
          · simp [setUsedAtFirst, ha']
          · simp [setUsedAtFirst, ha', List.mem_cons, h2 t hmem hth]

theorem compressRound_length (st : List Nat) (kw : Nat × Nat) :
    (compressRound st kw).length = st.length := by
  unfold compressRound
  split <;> simp

theorem foldl_compressRound_length (l : List (Nat × Nat)) :
    ∀ st : List Nat, (l.foldl compressRound st).length = st.length := by
  induction l with
  | nil => intro st; rfl
  | cons a as ih =>
      intro st
      simp only [List.foldl_cons]
      rw [ih (compressRound st a), compressRound_length]

theorem processBlock_length (h block : List Nat) (hh : h.length = 8) :
    (processBlock h block).length = 8 := by
  unfold processBlock
  simp [List.length_zip, foldl_compressRound_length, hh]

theorem foldl_processBlock_length (chunks : List (List Nat)) :
    ∀ h : List Nat, h.length = 8 → (chunks.foldl processBlock h).length = 8 := by
  induction chunks with
  | nil => intro h hh; exact hh
  | cons c cs ih =>
      intro h hh
      simp only [List.foldl_cons]
      exact ih _ (processBlock_length h c hh)

theorem flatMap_wordToBytes_length (l : List Nat) :
    (l.flatMap wordToBytes).length = 4 * l.length := by
  induction l with
  | nil => rfl
  | cons a as ih =>
      simp only [List.flatMap_cons, List.length_append, ih, wordToBytes]
      simp only [List.length_cons, List.length_nil, List.length]
      omega

theorem sha256_length (msg : List Nat) : (sha256 msg).length = 32 := by
  unfold sha256
  rw [flatMap_wordToBytes_length, foldl_processBlock_length _ H256 (by rfl)]

theorem mk_length (cs : List Char) : (String.mk cs).length = cs.length := rfl

theorem toHex_length (bytes : List Nat) : (toHex bytes).length = 2 * bytes.length := by
  unfold toHex
  rw [mk_length]
  induction bytes with
  | nil => rfl
  | cons b bs ih => simp only [List.flatMap_cons, List.length_append, ih]; simp; omega

theorem hash_token_length (s : String) : (hash_token s).length = 64 := by
  unfold hash_token
  rw [toHex_length, sha256_length]

theorem b64encode_length : ∀ l : List Nat, (b64encode l).length = (4 * l.length + 2) / 3
  | [] => by simp [b64encode]
  | [b0] => by simp [b64encode]
  | [b0, b1] => by simp [b64encode]
  | b0 :: b1 :: b2 :: rest => by
      simp only [b64encode, List.length_cons, b64encode_length rest]
      omega

theorem generate_token_length (entropy : List Nat) (hlen : entropy.length = 32) :
    (generate_token entropy).length = 43 := by
  unfold generate_token
  rw [mk_length, b64encode_length, hlen]

theorem truthy_iff (o : Option String) : truthy o = true ↔ ∃ s, o = some s ∧ s ≠ "" := by
  cases o <;> simp [truthy]

theorem pyLower_length (s : String) : (pyLower s).length = s.length := by
  unfold pyLower
  rw [mk_length, List.length_map]
  rfl

theorem eq_empty_of_pyLower_eq_empty (em : String) (h : pyLower em = "") : em = "" := by
  have hd : em.data.map Char.toLower = ([] : List Char) := congrArg String.data h
  have hd0 : em.data = [] := List.map_eq_nil_iff.mp hd
  cases em with
  | mk l => cases hd0; rfl

theorem find?_eq_some_split {α : Type} (p : α → Bool) (l : List α) (b : α)
    (h : l.find? p = some b) :
    ∃ l1 l2, l = l1 ++ b :: l2 ∧ ∀ v ∈ l1, p v = false := by
  induction l with
  | nil => simp [List.find?] at h
  | cons a as ih =>
      by_cases hpa : p a = true
      · have hab : a = b := by simpa [List.find?, hpa] using h
        exact ⟨[], as, by simp [hab], by simp⟩
      · have hpa' : p a = false := by simpa using hpa
        have h' : as.find? p = some b := by simpa [List.find?, hpa'] using h
        obtain ⟨l1, l2, rfl, hl1⟩ := ih h'
        refine ⟨a :: l1, l2, by simp, ?_⟩
        intro v hv
        rcases List.mem_cons.mp hv with rfl | hmem
        · exact hpa'
        · exact hl1 v hmem

/-! ### Claim theorems -/

/-- C6: `validate_token` modifies no stored state — for every input secret and
token type it returns the database exactly as it was, so in particular no
`used_at` is set and every `AuthToken`, `RateLimit` and `User` row is
unchanged. -/
theorem validate_token_no_write (db : DB) (now : Int) (raw_token token_type : String) :
    (validate_token db now raw_token token_type).2 = db := by
  simp only [validate_token]
  split <;> rfl

/-- C6 witness: `validate_token` at a concrete state returns that state. -/
theorem validate_token_no_write_witness :
    (validate_token ⟨[⟨1, none, "u"⟩], [⟨2, 1, "h", "password_reset", 0, 50, none⟩], [], 3⟩
      10 "tok" "password_reset").2
      = ⟨[⟨1, none, "u"⟩], [⟨2, 1, "h", "password_reset", 0, 50, none⟩], [], 3⟩ :=
  validate_token_no_write ⟨[⟨1, none, "u"⟩], [⟨2, 1, "h", "password_reset", 0, 50, none⟩], [], 3⟩
    10 "tok" "password_reset"

/-- C8: the email service is enabled exactly when SMTP host, user and password
are all present (set to a non-empty string) in the configuration; when not
enabled, `send_email` returns `False` immediately; and a transport exception is
caught and converted to a `False` return, never propagated. -/
theorem email_service_spec (cfg : AppConfig) (outcome : SmtpOutcome) (msg : String) :
    ((init_app cfg).enabled = true ↔
      ((∃ s, cfg.SMTP_HOST = some s ∧ s ≠ "") ∧ (∃ s, cfg.SMTP_USER = some s ∧ s ≠ "")
        ∧ (∃ s, cfg.SMTP_PASSWORD = some s ∧ s ≠ "")))
    ∧ ((init_app cfg).enabled = false → send_email (init_app cfg) outcome = false)
    ∧ send_email (init_app cfg) (SmtpOutcome.raised msg) = false := by
  refine ⟨?_, ?_, ?_⟩
  · simp only [init_app, Bool.and_eq_true, truthy_iff]
    tauto
  · intro h
    simp [send_email, h]
  · by_cases h : (init_app cfg).enabled <;> simp [send_email, h]

/-- C8 witness: a fully configured service, and a service missing the password,
behave as stated on a concrete send. -/
theorem email_service_spec_witness :
    ((init_app ⟨some "smtp.example.com", some "u", some "p"⟩).enabled = true ↔
      ((∃ s, (some "smtp.example.com" : Option String) = some s ∧ s ≠ "")
        ∧ (∃ s, (some "u" : Option String) = some s ∧ s ≠ "")
        ∧ (∃ s, (some "p" : Option String) = some s ∧ s ≠ "")))
    ∧ ((init_app ⟨some "smtp.example.com", some "u", some "p"⟩).enabled = false →
        send_email (init_app ⟨some "smtp.example.com", some "u", some "p"⟩)
          SmtpOutcome.delivered = false)
    ∧ send_email (init_app ⟨some "smtp.example.com", some "u", some "p"⟩)
        (SmtpOutcome.raised "connection refused") = false :=
  email_service_spec ⟨some "smtp.example.com", some "u", some "p"⟩
    SmtpOutcome.delivered "connection refused"

/-- C9: `create_auth_token` does not validate the token type — for every
`token_type` other than `"password_reset"`, the inserted row carries that type
verbatim and the magic-link expiry of `now + 15` minutes. -/
theorem create_auth_token_unrecognized_type (db : DB) (now : Int) (user : User)
    (token_type : String) (entropy : List Nat) (h : token_type ≠ "password_reset") :
    (AuthToken.mk db.nextId user.uuid (hash_token (generate_token entropy)) token_type now
        (now + MAGIC_LINK_EXPIRY) none)
      ∈ (create_auth_token db now user token_type entropy).2.authTokens := by
  have hbeq : (token_type == "password_reset") = false := by simpa using h
  simp [create_auth_token, hbeq, List.mem_append]

/-- C9 witness: an arbitrary unrecognized type `"totp"` is stored verbatim with
the 15-minute expiry. -/
theorem create_auth_token_unrecognized_type_witness :
    "totp" ≠ "password_reset"
    ∧ (AuthToken.mk 9 7 (hash_token (generate_token (List.replicate 32 0))) "totp" 50
        (50 + MAGIC_LINK_EXPIRY) none)
      ∈ (create_auth_token ⟨[⟨7, none, "u"⟩], [], [], 9⟩ 50 ⟨7, none, "u"⟩ "totp"
          (List.replicate 32 0)).2.authTokens :=
  ⟨by decide,
    create_auth_token_unrecognized_type ⟨[⟨7, none, "u"⟩], [], [], 9⟩ 50 ⟨7, none, "u"⟩ "totp"
      (List.replicate 32 0) (by decide)⟩

theorem filter_not_filter_eq_nil {α : Type} (p : α → Bool) (l : List α) :
    (l.filter fun a => !(p a)).filter p = [] := by
  induction l with
  | nil => rfl
  | cons a as ih => by_cases hpa : p a <;> simp [List.filter, hpa, ih]

/-- C2: `check_rate_limit` returns `True` exactly when fewer than 3 rate-limit
rows match the spec's predicate (SHA-256 of the lowercased trimmed email, same
action type, timestamp strictly inside the trailing hour); it performs no
write; and `record_rate_limit` adds a row that a later check counts exactly
when that later check's window still strictly contains the recording time, so
the result reverts once the window has elapsed. -/
theorem check_rate_limit_spec (db : DB) (now now' : Int) (email action_type : String) :
    ((check_rate_limit db now email action_type).1 = true ↔
      rlCount db now email action_type < RATE_LIMIT_MAX_REQUESTS)
    ∧ (check_rate_limit db now email action_type).2 = db
    ∧ rlCount (record_rate_limit db now email action_type) now' email action_type
        = rlCount db now' email action_type + (if now' - 3600 < now then 1 else 0)
    ∧ (record_rate_limit db now email action_type).users = db.users
    ∧ (record_rate_limit db now email action_type).authTokens = db.authTokens := by
  have hpt : ∀ m : Int, ∀ r : RateLimit,
      (r.identifier == hash_email_for_rate_limit email && r.action_type == action_type &&
        decide (m - RATE_LIMIT_WINDOW < r.timestamp))
        = decide (rlMatches m email action_type r) := by
    intro m r
    rw [Bool.eq_iff_iff]
    simp [rlMatches, hash_email_for_rate_limit, RATE_LIMIT_WINDOW, and_assoc]
  refine ⟨?_, rfl, ?_, rfl, rfl⟩
  · simp only [check_rate_limit, rlCount, decide_eq_true_eq]
    rw [List.filter_congr (fun r _ => hpt now r)]
  · have hrow : (decide (rlMatches now' email action_type
        ⟨db.nextId, hash_email_for_rate_limit email, action_type, now⟩) : Bool)
        = decide (now' - 3600 < now) := by
      rw [decide_eq_decide]
      unfold rlMatches hash_email_for_rate_limit
      simp
    simp only [record_rate_limit, rlCount, List.filter_append, List.length_append,
      List.filter_cons, List.filter_nil, hrow]
    by_cases hw : now' - 3600 < now <;> simp [hw]

/-- C2 witness: the characterization instantiated at a concrete empty state,
with a recording at time 0 observed by a later check at time 3601. -/
theorem check_rate_limit_spec_witness :
    ((check_rate_limit ⟨[], [], [], 0⟩ 0 "a@b.c" "password_reset").1 = true ↔
      rlCount ⟨[], [], [], 0⟩ 0 "a@b.c" "password_reset" < RATE_LIMIT_MAX_REQUESTS)
    ∧ (check_rate_limit ⟨[], [], [], 0⟩ 0 "a@b.c" "password_reset").2 = ⟨[], [], [], 0⟩
    ∧ rlCount (record_rate_limit ⟨[], [], [], 0⟩ 0 "a@b.c" "password_reset")
        3601 "a@b.c" "password_reset"
        = rlCount ⟨[], [], [], 0⟩ 3601 "a@b.c" "password_reset"
          + (if (3601 : Int) - 3600 < 0 then 1 else 0)
    ∧ (record_rate_limit ⟨[], [], [], 0⟩ 0 "a@b.c" "password_reset").users = []
    ∧ (record_rate_limit ⟨[], [], [], 0⟩ 0 "a@b.c" "password_reset").authTokens = [] :=
  check_rate_limit_spec ⟨[], [], [], 0⟩ 0 3601 "a@b.c" "password_reset"

/-- C3: after `create_auth_token`, exactly one unused token row of that type
exists for that user (the call deletes prior unused rows of the pair and
inserts one fresh row), and every row outside the deleted set is preserved. -/
theorem create_auth_token_single_unused (db : DB) (now : Int) (user : User)
    (token_type : String) (entropy : List Nat) :
    (((create_auth_token db now user token_type entropy).2.authTokens.filter fun t =>
        t.user_id == user.uuid && t.token_type == token_type && t.used_at == none).length = 1)
    ∧ ∀ t ∈ db.authTokens,
        ¬(t.user_id = user.uuid ∧ t.token_type = token_type ∧ t.used_at = none) →
          t ∈ (create_auth_token db now user token_type entropy).2.authTokens := by
  constructor
  · simp only [create_auth_token, List.filter_append,
      filter_not_filter_eq_nil (fun t : AuthToken =>
        t.user_id == user.uuid && t.token_type == token_type && t.used_at == none)]
    simp [List.filter]
  · intro t ht hno
    simp only [create_auth_token]
    apply List.mem_append_left
    apply List.mem_filter.mpr
    refine ⟨ht, ?_⟩
    have : (t.user_id == user.uuid && t.token_type == token_type && t.used_at == none) = false := by
      rw [Bool.eq_false_iff]
      intro hcontra
      apply hno
      simpa [and_assoc] using hcontra
    simp [this]

/-- C3 witness: creating a token on a state holding an unused row and a used
row of the same pair leaves exactly one unused row, the used row surviving. -/
theorem create_auth_token_single_unused_witness :
    (((create_auth_token ⟨[⟨7, none, "u"⟩], [⟨1, 7, "h1", "password_reset", 0, 60, none⟩,
        ⟨2, 7, "h2", "password_reset", 0, 60, some 5⟩], [], 9⟩ 50 ⟨7, none, "u"⟩
        "password_reset" (List.replicate 32 0)).2.authTokens.filter fun t =>
        t.user_id == (7 : Nat) && t.token_type == "password_reset" && t.used_at == none).length = 1)
    ∧ (⟨2, 7, "h2", "password_reset", 0, 60, some 5⟩ : AuthToken)
        ∈ (create_auth_token ⟨[⟨7, none, "u"⟩], [⟨1, 7, "h1", "password_reset", 0, 60, none⟩,
          ⟨2, 7, "h2", "password_reset", 0, 60, some 5⟩], [], 9⟩ 50 ⟨7, none, "u"⟩
          "password_reset" (List.replicate 32 0)).2.authTokens :=
  ⟨(create_auth_token_single_unused ⟨[⟨7, none, "u"⟩], [⟨1, 7, "h1", "password_reset", 0, 60, none⟩,
      ⟨2, 7, "h2", "password_reset", 0, 60, some 5⟩], [], 9⟩ 50 ⟨7, none, "u"⟩
      "password_reset" (List.replicate 32 0)).1,
   (create_auth_token_single_unused ⟨[⟨7, none, "u"⟩], [⟨1, 7, "h1", "password_reset", 0, 60, none⟩,
      ⟨2, 7, "h2", "password_reset", 0, 60, some 5⟩], [], 9⟩ 50 ⟨7, none, "u"⟩
      "password_reset" (List.replicate 32 0)).2
     ⟨2, 7, "h2", "password_reset", 0, 60, some 5⟩ (by decide) (by decide)⟩

/-- C4: `cleanup_expired_tokens` deletes exactly the expired token rows, the
token rows consumed strictly more than 24 hours ago, and the rate-limit rows
strictly older than 1 hour; every other row of every table is left unchanged,
in order. -/
theorem cleanup_expired_tokens_exact (db : DB) (now : Int) :
    (cleanup_expired_tokens db now).users = db.users
    ∧ (cleanup_expired_tokens db now).authTokens
        = db.authTokens.filter (fun t => decide (¬tokenExpired now t ∧ ¬tokenOldUsed now t))
    ∧ (cleanup_expired_tokens db now).rateLimits
        = db.rateLimits.filter (fun r => decide (¬rateOld now r))
    ∧ (∀ t, t ∈ (cleanup_expired_tokens db now).authTokens ↔
        t ∈ db.authTokens ∧ ¬tokenExpired now t ∧ ¬tokenOldUsed now t)
    ∧ (∀ r, r ∈ (cleanup_expired_tokens db now).rateLimits ↔
        r ∈ db.rateLimits ∧ ¬rateOld now r) := by
  have htok : (cleanup_expired_tokens db now).authTokens
      = db.authTokens.filter (fun t => decide (¬tokenExpired now t ∧ ¬tokenOldUsed now t)) := by
    simp only [cleanup_expired_tokens, List.filter_filter]
    apply List.filter_congr
    intro t _
    rw [Bool.eq_iff_iff]
    cases hu : t.used_at <;> simp [tokenExpired, tokenOldUsed, hu, and_comm]
  have hrl : (cleanup_expired_tokens db now).rateLimits
      = db.rateLimits.filter (fun r => decide (¬rateOld now r)) := by
    simp only [cleanup_expired_tokens]
    apply List.filter_congr
    intro r _
    rw [Bool.eq_iff_iff]
    simp [rateOld, RATE_LIMIT_WINDOW]
  refine ⟨rfl, htok, hrl, ?_, ?_⟩
  · intro t
    rw [htok, List.mem_filter]
    simp
  · intro r
    rw [hrl, List.mem_filter]
    simp

/-- C4 witness: a state with one row of each deleted set and one survivor of
each kind, cleaned at time 100000. -/
theorem cleanup_expired_tokens_exact_witness :
    (cleanup_expired_tokens ⟨[⟨1, none, "u"⟩],
        [⟨1, 1, "h1", "magic_link", 0, 50, none⟩,
         ⟨2, 1, "h2", "magic_link", 0, 999999, some 5⟩,
         ⟨3, 1, "h3", "magic_link", 0, 999999, some 99999⟩],
        [⟨4, "id", "magic_link", 5⟩, ⟨5, "id", "magic_link", 99999⟩], 6⟩ 100000).users
      = [⟨1, none, "u"⟩]
    ∧ (cleanup_expired_tokens ⟨[⟨1, none, "u"⟩],
        [⟨1, 1, "h1", "magic_link", 0, 50, none⟩,
         ⟨2, 1, "h2", "magic_link", 0, 999999, some 5⟩,
         ⟨3, 1, "h3", "magic_link", 0, 999999, some 99999⟩],
        [⟨4, "id", "magic_link", 5⟩, ⟨5, "id", "magic_link", 99999⟩], 6⟩ 100000).authTokens
      = ([⟨1, 1, "h1", "magic_link", 0, 50, none⟩,
          ⟨2, 1, "h2", "magic_link", 0, 999999, some 5⟩,
          ⟨3, 1, "h3", "magic_link", 0, 999999, some 99999⟩].filter
          (fun t => decide (¬tokenExpired 100000 t ∧ ¬tokenOldUsed 100000 t)))
    ∧ (cleanup_expired_tokens ⟨[⟨1, none, "u"⟩],
        [⟨1, 1, "h1", "magic_link", 0, 50, none⟩,
         ⟨2, 1, "h2", "magic_link", 0, 999999, some 5⟩,
         ⟨3, 1, "h3", "magic_link", 0, 999999, some 99999⟩],
        [⟨4, "id", "magic_link", 5⟩, ⟨5, "id", "magic_link", 99999⟩], 6⟩ 100000).rateLimits
      = ([⟨4, "id", "magic_link", 5⟩, ⟨5, "id", "magic_link", 99999⟩].filter
          (fun r => decide (¬rateOld 100000 r)))
    ∧ (∀ t, t ∈ (cleanup_expired_tokens ⟨[⟨1, none, "u"⟩],
        [⟨1, 1, "h1", "magic_link", 0, 50, none⟩,
         ⟨2, 1, "h2", "magic_link", 0, 999999, some 5⟩,
         ⟨3, 1, "h3", "magic_link", 0, 999999, some 99999⟩],
        [⟨4, "id", "magic_link", 5⟩, ⟨5, "id", "magic_link", 99999⟩], 6⟩ 100000).authTokens ↔
        t ∈ [⟨1, 1, "h1", "magic_link", 0, 50, none⟩,
          ⟨2, 1, "h2", "magic_link", 0, 999999, some 5⟩,
          ⟨3, 1, "h3", "magic_link", 0, 999999, some 99999⟩]
        ∧ ¬tokenExpired 100000 t ∧ ¬tokenOldUsed 100000 t)
    ∧ (∀ r, r ∈ (cleanup_expired_tokens ⟨[⟨1, none, "u"⟩],
        [⟨1, 1, "h1", "magic_link", 0, 50, none⟩,
         ⟨2, 1, "h2", "magic_link", 0, 999999, some 5⟩,
         ⟨3, 1, "h3", "magic_link", 0, 999999, some 99999⟩],
        [⟨4, "id", "magic_link", 5⟩, ⟨5, "id", "magic_link", 99999⟩], 6⟩ 100000).rateLimits ↔
        r ∈ [⟨4, "id", "magic_link", 5⟩, ⟨5, "id", "magic_link", 99999⟩]
        ∧ ¬rateOld 100000 r) :=
  cleanup_expired_tokens_exact ⟨[⟨1, none, "u"⟩],
    [⟨1, 1, "h1", "magic_link", 0, 50, none⟩,
     ⟨2, 1, "h2", "magic_link", 0, 999999, some 5⟩,
     ⟨3, 1, "h3", "magic_link", 0, 999999, some 99999⟩],
    [⟨4, "id", "magic_link", 5⟩, ⟨5, "id", "magic_link", 99999⟩], 6⟩ 100000

/-- C5: `create_auth_token` never persists the raw secret — the inserted row's
`token_hash` is exactly the SHA-256 hex digest of the returned secret's UTF-8
bytes (that is, `hash_token` of it), and neither the hash column nor the type
column equals the raw secret itself. -/
theorem create_auth_token_stores_only_hash (db : DB) (now : Int) (user : User)
    (token_type : String) (entropy : List Nat) (hlen : entropy.length = 32)
    (htt : token_type = "password_reset" ∨ token_type = "magic_link") :
    ∃ row : AuthToken,
      (create_auth_token db now user token_type entropy).2.authTokens.getLast? = some row
      ∧ row.token_hash
          = toHex (sha256 (utf8Encode (create_auth_token db now user token_type entropy).1))
      ∧ row.token_hash ≠ (create_auth_token db now user token_type entropy).1
      ∧ row.token_type = token_type
      ∧ row.token_type ≠ (create_auth_token db now user token_type entropy).1
      ∧ row.user_id = user.uuid := by
  have hT : (create_auth_token db now user token_type entropy).1 = generate_token entropy := rfl
  have hTlen : (create_auth_token db now user token_type entropy).1.length = 43 := by
    rw [hT]; exact generate_token_length entropy hlen
  refine ⟨⟨db.nextId, user.uuid, hash_token (generate_token entropy), token_type, now,
    (if token_type == "password_reset" then now + PASSWORD_RESET_EXPIRY
     else now + MAGIC_LINK_EXPIRY), none⟩, ?_, rfl, ?_, rfl, ?_, rfl⟩
  · simp only [create_auth_token]
    rw [List.getLast?_concat]
  · intro heq
    have heq' : hash_token (generate_token entropy)
        = (create_auth_token db now user token_type entropy).1 := heq
    have h64 : (hash_token (generate_token entropy)).length = 64 := hash_token_length _
    rw [heq', hTlen] at h64
    exact absurd h64 (by decide)
  · intro heq
    have heq' : token_type = (create_auth_token db now user token_type entropy).1 := heq
    have hlen' := congrArg String.length heq'
    rw [hTlen] at hlen'
    rcases htt with h | h <;> rw [h] at hlen' <;> exact absurd hlen' (by decide)

/-- C5 witness: a concrete password-reset issuance whose stored row hashes the
returned secret and stores the secret nowhere. -/
theorem create_auth_token_stores_only_hash_witness :
    (List.replicate 32 0).length = 32
    ∧ ("password_reset" = "password_reset" ∨ "password_reset" = "magic_link")
    ∧ ∃ row : AuthToken,
      (create_auth_token ⟨[⟨7, none, "u"⟩], [], [], 9⟩ 50 ⟨7, none, "u"⟩ "password_reset"
        (List.replicate 32 0)).2.authTokens.getLast? = some row
      ∧ row.token_hash = toHex (sha256 (utf8Encode
          (create_auth_token ⟨[⟨7, none, "u"⟩], [], [], 9⟩ 50 ⟨7, none, "u"⟩ "password_reset"
            (List.replicate 32 0)).1))
      ∧ row.token_hash ≠ (create_auth_token ⟨[⟨7, none, "u"⟩], [], [], 9⟩ 50 ⟨7, none, "u"⟩
          "password_reset" (List.replicate 32 0)).1
      ∧ row.token_type = "password_reset"
      ∧ row.token_type ≠ (create_auth_token ⟨[⟨7, none, "u"⟩], [], [], 9⟩ 50 ⟨7, none, "u"⟩
          "password_reset" (List.replicate 32 0)).1
      ∧ row.user_id = 7 :=
  ⟨by decide, Or.inl rfl,
    create_auth_token_stores_only_hash ⟨[⟨7, none, "u"⟩], [], [], 9⟩ 50 ⟨7, none, "u"⟩
      "password_reset" (List.replicate 32 0) (by decide) (Or.inl rfl)⟩

/-- C7 counterexample: two stored emails that equal their queried emails after
lowercasing and trimming surrounding whitespace on both sides of the
comparison, yet `get_user_by_email` returns no user: a stored email with
leading whitespace (the stored side is never trimmed), and an empty stored
email against a whitespace-only query (both trim to the empty string). -/
theorem get_user_by_email_no_stored_trim :
    (pyStrip (pyLower " a@b.c") = pyStrip (pyLower "a@b.c")
      ∧ get_user_by_email ⟨[⟨1, some " a@b.c", "alice"⟩], [], [], 2⟩ "a@b.c" = none)
    ∧ (pyStrip (pyLower "") = pyStrip (pyLower " ")
      ∧ get_user_by_email ⟨[⟨2, some "", "bob"⟩], [], [], 3⟩ " " = none) := by
  decide

/-- C7 amended: `get_user_by_email` lowercases and trims the *queried* email
only: whenever some user's stored email is non-empty and, lowercased (but not
trimmed), equals the normalized query, such a matching user is returned (the
first one in table order — no earlier user matches); if no user's stored email
matches under this equivalence, `none` is returned. -/
theorem get_user_by_email_spec (db : DB) (email : String) :
    match get_user_by_email db email with
    | some u => emailMatches email u
        ∧ ∃ l1 l2, db.users = l1 ++ u :: l2 ∧ ∀ v ∈ l1, ¬emailMatches email v
    | none => ∀ u ∈ db.users, ¬emailMatches email u := by
  unfold get_user_by_email
  by_cases he : email = ""
  · subst he
    simp only [beq_self_eq_true, if_true]
    intro u hu hm
    obtain ⟨em, hem, hne, heq⟩ := hm
    rw [show pyStrip (pyLower "") = "" from rfl] at heq
    exact hne (eq_empty_of_pyLower_eq_empty em heq)
  · have he' : (email == "") = false := by simpa using he
    simp only [he', Bool.false_eq_true, if_false]
    cases hf : db.users.find? (fun u =>
      match u.email with
      | some em => em != "" && (pyLower em == pyStrip (pyLower email))
      | none => false) with
    | none =>
        intro u hu hm
        obtain ⟨em, hem, hne, heq⟩ := hm
        have hnp := List.find?_eq_none.mp hf u hu
        rw [hem] at hnp
        simp only [Bool.and_eq_true, bne_iff_ne, beq_iff_eq, not_and] at hnp
        exact absurd heq (hnp hne)
    | some u =>
        have hp0 := List.find?_some hf
        obtain ⟨l1, l2, hsplit, hl1⟩ := find?_eq_some_split _ _ _ hf
        cases hem : u.email with
        | none => rw [hem] at hp0; simp at hp0
        | some em =>
            rw [hem] at hp0
            simp only [Bool.and_eq_true, bne_iff_ne, beq_iff_eq] at hp0
            refine ⟨⟨em, hem, hp0.1, hp0.2⟩, l1, l2, hsplit, ?_⟩
            intro v hv hm
            obtain ⟨em', hem', hne', heq'⟩ := hm
            have hbv := ne_true_of_eq_false (hl1 v hv)
            rw [hem'] at hbv
            simp only [Bool.and_eq_true, bne_iff_ne, beq_iff_eq, not_and] at hbv
            exact absurd heq' (hbv hne')

/-- C7 amended witness: a lookup that succeeds case-insensitively with the
query trimmed, against an untrimmed stored email. -/
theorem get_user_by_email_spec_witness :
    match get_user_by_email ⟨[⟨1, some "A@b.c", "alice"⟩], [], [], 2⟩ " a@B.C " with
    | some u => emailMatches " a@B.C " u
        ∧ ∃ l1 l2, [(⟨1, some "A@b.c", "alice"⟩ : User)] = l1 ++ u :: l2
            ∧ ∀ v ∈ l1, ¬emailMatches " a@B.C " v
    | none => ∀ u ∈ [(⟨1, some "A@b.c", "alice"⟩ : User)], ¬emailMatches " a@B.C " u :=
  get_user_by_email_spec ⟨[⟨1, some "A@b.c", "alice"⟩], [], [], 2⟩ " a@B.C "

/-- C10: `invalidate_token` matches a row by hash alone — even one already
consumed or expired — returns `True`, overwrites its `used_at` with the
current time, leaves rows with other hashes in place, and the refreshed row
only counts as "consumed more than 24 hours ago" (the cleanup retention
predicate) strictly after `now + 24h`. -/
theorem invalidate_token_by_hash_alone (db : DB) (now : Int) (s : String) (r : AuthToken)
    (hfind : db.authTokens.find? (fun t => t.token_hash == hash_token s) = some r) :
    (invalidate_token db now s).1 = true
    ∧ { r with used_at := some now } ∈ (invalidate_token db now s).2.authTokens
    ∧ (∀ t ∈ db.authTokens, t.token_hash ≠ hash_token s →
        t ∈ (invalidate_token db now s).2.authTokens)
    ∧ (∀ now', tokenOldUsed now' { r with used_at := some now } ↔ now + 86400 < now') := by
  obtain ⟨h1, h2⟩ := setUsedAtFirst_spec (hash_token s) now r db.authTokens hfind
  simp only [invalidate_token, hfind]
  refine ⟨by trivial, h1, fun t ht hth => h2 t ht hth, fun now' => ?_⟩
  simp only [tokenOldUsed]
  constructor
  · rintro ⟨u, hu, hlt⟩
    simp only [Option.some.injEq] at hu
    omega
  · intro h
    exact ⟨now, rfl, by omega⟩

/-- C10 witness: invalidating a token whose row is already consumed and
expired still succeeds and re-stamps `used_at`. -/
theorem invalidate_token_by_hash_alone_witness :
    ([⟨1, 7, hash_token "tok", "password_reset", 0, 5, some 3⟩] :
        List AuthToken).find? (fun t => t.token_hash == hash_token "tok")
      = some ⟨1, 7, hash_token "tok", "password_reset", 0, 5, some 3⟩
    ∧ ((invalidate_token ⟨[], [⟨1, 7, hash_token "tok", "password_reset", 0, 5, some 3⟩], [], 2⟩
        1000 "tok").1 = true
      ∧ ({ (⟨1, 7, hash_token "tok", "password_reset", 0, 5, some 3⟩ : AuthToken) with
            used_at := some 1000 })
          ∈ (invalidate_token ⟨[], [⟨1, 7, hash_token "tok", "password_reset", 0, 5, some 3⟩],
            [], 2⟩ 1000 "tok").2.authTokens
      ∧ (∀ t ∈ ([⟨1, 7, hash_token "tok", "password_reset", 0, 5, some 3⟩] : List AuthToken),
          t.token_hash ≠ hash_token "tok" →
            t ∈ (invalidate_token ⟨[], [⟨1, 7, hash_token "tok", "password_reset", 0, 5, some 3⟩],
              [], 2⟩ 1000 "tok").2.authTokens)
      ∧ (∀ now', tokenOldUsed now'
            { (⟨1, 7, hash_token "tok", "password_reset", 0, 5, some 3⟩ : AuthToken) with
              used_at := some 1000 } ↔ 1000 + 86400 < now')) :=
  ⟨by simp [List.find?],
    invalidate_token_by_hash_alone ⟨[], [⟨1, 7, hash_token "tok", "password_reset", 0, 5, some 3⟩],
      [], 2⟩ 1000 "tok" ⟨1, 7, hash_token "tok", "password_reset", 0, 5, some 3⟩
      (by simp [List.find?])⟩

/-- C1: the password-reset lifecycle — issuing a token for user `U` returns a
43-character secret `T`; `validate_token T "password_reset"` before expiry
returns `U`; `invalidate_token T` then returns `True`; and every subsequent
`validate_token T "password_reset"` returns `None`.  The hypotheses say the
entropy has the 32 bytes the source draws, the fresh token's hash does not
collide with a stored row, and `U` is resolvable by its id. -/
theorem token_lifecycle (db : DB) (now t1 t2 t3 : Int) (U : User) (entropy : List Nat)
    (hlen : entropy.length = 32)
    (hfresh : ∀ t ∈ db.authTokens, t.token_hash ≠ hash_token (generate_token entropy))
    (huser : db.users.find? (fun u => u.uuid == U.uuid) = some U)
    (ht1 : t1 < now + PASSWORD_RESET_EXPIRY) :
    (create_auth_token db now U "password_reset" entropy).1.length = 43
    ∧ (validate_token (create_auth_token db now U "password_reset" entropy).2 t1
        (create_auth_token db now U "password_reset" entropy).1 "password_reset").1 = some U
    ∧ (invalidate_token (create_auth_token db now U "password_reset" entropy).2 t2
        (create_auth_token db now U "password_reset" entropy).1).1 = true
    ∧ (validate_token
        (invalidate_token (create_auth_token db now U "password_reset" entropy).2 t2
          (create_auth_token db now U "password_reset" entropy).1).2 t3
        (create_auth_token db now U "password_reset" entropy).1 "password_reset").1 = none := by
  have hc1 : (create_auth_token db now U "password_reset" entropy).1
      = generate_token entropy := rfl
  have hc2 : (create_auth_token db now U "password_reset" entropy).2
      = { db with
          authTokens := (db.authTokens.filter fun t =>
              !(t.user_id == U.uuid && t.token_type == "password_reset" && t.used_at == none))
            ++ [⟨db.nextId, U.uuid, hash_token (generate_token entropy), "password_reset", now,
                now + PASSWORD_RESET_EXPIRY, none⟩],
          nextId := db.nextId + 1 } := rfl
  rw [hc1, hc2]
  have hrem_hash : ∀ t ∈ (db.authTokens.filter fun t =>
      !(t.user_id == U.uuid && t.token_type == "password_reset" && t.used_at == none)),
      (t.token_hash == hash_token (generate_token entropy)) = false := by
    intro t ht
    exact beq_eq_false_iff_ne.mpr (hfresh t (List.mem_filter.mp ht).1)
  have hall2 : ∀ t ∈ (db.authTokens.filter fun t =>
      !(t.user_id == U.uuid && t.token_type == "password_reset" && t.used_at == none)),
      (t.token_hash == hash_token (generate_token entropy) &&
        t.token_type == "password_reset" && t.used_at == none && decide (t1 < t.expires_at))
        = false := by
    intro t ht
    simp only [hrem_hash t ht, Bool.false_and]
  have hfind2 : ((db.authTokens.filter fun t =>
      !(t.user_id == U.uuid && t.token_type == "password_reset" && t.used_at == none))
      ++ ([⟨db.nextId, U.uuid, hash_token (generate_token entropy), "password_reset", now,
          now + PASSWORD_RESET_EXPIRY, none⟩] : List AuthToken)).find? (fun t =>
        t.token_hash == hash_token (generate_token entropy) &&
          t.token_type == "password_reset" && t.used_at == none && decide (t1 < t.expires_at))
      = some ⟨db.nextId, U.uuid, hash_token (generate_token entropy), "password_reset", now,
          now + PASSWORD_RESET_EXPIRY, none⟩ := by
    rw [find?_append_of_forall_false _ _ _ hall2]
    simp [List.find?, ht1]
  have hfind3 : ((db.authTokens.filter fun t =>
      !(t.user_id == U.uuid && t.token_type == "password_reset" && t.used_at == none))
      ++ ([⟨db.nextId, U.uuid, hash_token (generate_token entropy), "password_reset", now,
          now + PASSWORD_RESET_EXPIRY, none⟩] : List AuthToken)).find? (fun t =>
        t.token_hash == hash_token (generate_token entropy))
      = some ⟨db.nextId, U.uuid, hash_token (generate_token entropy), "password_reset", now,
          now + PASSWORD_RESET_EXPIRY, none⟩ := by
    rw [find?_append_of_forall_false _ _ _ hrem_hash]
    simp [List.find?]
  have hset : setUsedAtFirst (hash_token (generate_token entropy)) t2
      ((db.authTokens.filter fun t =>
        !(t.user_id == U.uuid && t.token_type == "password_reset" && t.used_at == none))
        ++ ([⟨db.nextId, U.uuid, hash_token (generate_token entropy), "password_reset", now,
            now + PASSWORD_RESET_EXPIRY, none⟩] : List AuthToken))
      = (db.authTokens.filter fun t =>
        !(t.user_id == U.uuid && t.token_type == "password_reset" && t.used_at == none))
        ++ [⟨db.nextId, U.uuid, hash_token (generate_token entropy), "password_reset", now,
            now + PASSWORD_RESET_EXPIRY, some t2⟩] := by
    rw [setUsedAtFirst_append _ _ _ _ hrem_hash]
    simp [setUsedAtFirst]
  have hall4 : ∀ t ∈ (db.authTokens.filter fun t =>
      !(t.user_id == U.uuid && t.token_type == "password_reset" && t.used_at == none)),
      (t.token_hash == hash_token (generate_token entropy) &&
        t.token_type == "password_reset" && t.used_at == none && decide (t3 < t.expires_at))
        = false := by
    intro t ht
    simp only [hrem_hash t ht, Bool.false_and]
  have hfind4 : ((db.authTokens.filter fun t =>
      !(t.user_id == U.uuid && t.token_type == "password_reset" && t.used_at == none))
      ++ ([⟨db.nextId, U.uuid, hash_token (generate_token entropy), "password_reset", now,
          now + PASSWORD_RESET_EXPIRY, some t2⟩] : List AuthToken)).find? (fun t =>
        t.token_hash == hash_token (generate_token entropy) &&
          t.token_type == "password_reset" && t.used_at == none && decide (t3 < t.expires_at))
      = none := by
    rw [find?_append_of_forall_false _ _ _ hall4]
    simp [List.find?]
  refine ⟨generate_token_length entropy hlen, ?_, ?_, ?_⟩
  · simp only [validate_token, hfind2]
    exact huser
  · simp only [invalidate_token, hfind3]
  · simp only [invalidate_token, hfind3, hset, validate_token, hfind4]

/-- C1 witness: the lifecycle at a concrete one-user database, zero entropy,
issuance at time 0, validation at 100, invalidation at 200 and a final
validation attempt at 300. -/
theorem token_lifecycle_witness :
    (List.replicate 32 0).length = 32
    ∧ (∀ t ∈ (⟨[⟨1, some "a@b.c", "alice"⟩], [], [], 2⟩ : DB).authTokens,
        t.token_hash ≠ hash_token (generate_token (List.replicate 32 0)))
    ∧ (⟨[⟨1, some "a@b.c", "alice"⟩], [], [], 2⟩ : DB).users.find?
        (fun u => u.uuid == (1 : Nat)) = some ⟨1, some "a@b.c", "alice"⟩
    ∧ (100 : Int) < 0 + PASSWORD_RESET_EXPIRY
    ∧ ((create_auth_token ⟨[⟨1, some "a@b.c", "alice"⟩], [], [], 2⟩ 0 ⟨1, some "a@b.c", "alice"⟩
          "password_reset" (List.replicate 32 0)).1.length = 43
      ∧ (validate_token (create_auth_token ⟨[⟨1, some "a@b.c", "alice"⟩], [], [], 2⟩ 0
            ⟨1, some "a@b.c", "alice"⟩ "password_reset" (List.replicate 32 0)).2 100
          (create_auth_token ⟨[⟨1, some "a@b.c", "alice"⟩], [], [], 2⟩ 0
            ⟨1, some "a@b.c", "alice"⟩ "password_reset" (List.replicate 32 0)).1
          "password_reset").1 = some ⟨1, some "a@b.c", "alice"⟩
      ∧ (invalidate_token (create_auth_token ⟨[⟨1, some "a@b.c", "alice"⟩], [], [], 2⟩ 0
            ⟨1, some "a@b.c", "alice"⟩ "password_reset" (List.replicate 32 0)).2 200
          (create_auth_token ⟨[⟨1, some "a@b.c", "alice"⟩], [], [], 2⟩ 0
            ⟨1, some "a@b.c", "alice"⟩ "password_reset" (List.replicate 32 0)).1).1 = true
      ∧ (validate_token
          (invalidate_token (create_auth_token ⟨[⟨1, some "a@b.c", "alice"⟩], [], [], 2⟩ 0
              ⟨1, some "a@b.c", "alice"⟩ "password_reset" (List.replicate 32 0)).2 200
            (create_auth_token ⟨[⟨1, some "a@b.c", "alice"⟩], [], [], 2⟩ 0
              ⟨1, some "a@b.c", "alice"⟩ "password_reset" (List.replicate 32 0)).1).2 300
          (create_auth_token ⟨[⟨1, some "a@b.c", "alice"⟩], [], [], 2⟩ 0
            ⟨1, some "a@b.c", "alice"⟩ "password_reset" (List.replicate 32 0)).1
          "password_reset").1 = none) :=
  ⟨by decide, by simp, by decide, by decide,
    token_lifecycle ⟨[⟨1, some "a@b.c", "alice"⟩], [], [], 2⟩ 0 100 200 300
      ⟨1, some "a@b.c", "alice"⟩ (List.replicate 32 0) (by decide) (by simp) (by decide)
      (by decide)⟩

end DailyNotes
